import Mathlib

/-!
Verification of the usage/rate-limit tracking engine of the fashion-agent
frontend (`frontend/src/helpers/apiService.js`).

The engine is shallowly embedded: JavaScript values that can appear in the
persisted `fashionAgent_usage` record are modelled by the inductive `JSValue`,
JavaScript's numeric coercion (`ToNumber`), truthiness, `isNaN`, `||`, `+`,
`-`, `>=`, `<=`, `>` are modelled by executable functions, and each method of
the `ApiService` class becomes a pure function from the persisted-store state
(plus the current time and the outcome of any network probe) to its result and
the new store state.  Numbers are modelled by `Int` (all quantities the engine
manipulates are integer millisecond counts and integer quota counters); the
string-to-number coercion is modelled on the integer-literal fragment of
JavaScript's grammar, which covers every string the engine or the theorems
below feed to it.
-/

/-- A JavaScript value as it can occur in a field of the persisted usage
record or of a server response: `undefined`, `null`, `NaN`, a boolean, an
(integer) number, or a string. -/
inductive JSValue where
  | undef : JSValue
  | jsnull : JSValue
  | nan : JSValue
  | bool : Bool → JSValue
  | num : Int → JSValue
  | str : String → JSValue
deriving DecidableEq, Repr

namespace JSValue

/-- Digits of a decimal string, folded to a natural number. -/
def digitsToNat (l : List Char) : Nat :=
  l.foldl (fun a c => a * 10 + (c.toNat - 48)) 0

/-- JavaScript's string-to-number coercion, on the decimal-integer fragment:
the empty/whitespace string coerces to 0, an optionally signed digit string to
its value, anything else to NaN (`none`). -/
def jsStrToNum (s : String) : Option Int :=
  let t := s.trim
  if t = "" then some 0
  else
    match t.toList with
    | '-' :: rest =>
        if rest ≠ [] ∧ rest.all Char.isDigit then some (-(digitsToNat rest : Int)) else none
    | '+' :: rest =>
        if rest ≠ [] ∧ rest.all Char.isDigit then some ((digitsToNat rest : Int)) else none
    | l =>
        if l ≠ [] ∧ l.all Char.isDigit then some ((digitsToNat l : Int)) else none

/-- JavaScript `ToNumber`; `none` models NaN. -/
def toNumber : JSValue → Option Int
  | undef => none
  | jsnull => some 0
  | nan => none
  | bool b => some (if b then 1 else 0)
  | num n => some n
  | str s => jsStrToNum s

/-- JavaScript's global `isNaN` (coerce with `ToNumber`, test for NaN). -/
def jsIsNaN (v : JSValue) : Bool := (toNumber v).isNone

/-- JavaScript truthiness. -/
def jsTruthy : JSValue → Bool
  | undef => false
  | jsnull => false
  | nan => false
  | bool b => b
  | num n => decide (n ≠ 0)
  | str s => decide (s ≠ "")

/-- JavaScript `a || b`: the first operand if truthy, else the second. -/
def jsOr (a b : JSValue) : JSValue := if jsTruthy a then a else b

/-- JavaScript `ToString` on the values above. -/
def jsToString : JSValue → String
  | undef => "undefined"
  | jsnull => "null"
  | nan => "NaN"
  | bool b => if b then "true" else "false"
  | num n => toString n
  | str s => s

/-- JavaScript `a + b`: string concatenation if either side is a string, else
numeric addition (NaN-propagating). -/
def jsAdd (a b : JSValue) : JSValue :=
  match a, b with
  | str s, _ => str (s ++ jsToString b)
  | _, str s => str (jsToString a ++ s)
  | _, _ =>
    match toNumber a, toNumber b with
    | some x, some y => num (x + y)
    | _, _ => nan

/-- JavaScript `a - b`: always numeric, NaN-propagating. -/
def jsSub (a b : JSValue) : JSValue :=
  match toNumber a, toNumber b with
  | some x, some y => num (x - y)
  | _, _ => nan

/-- JavaScript `a >= b`: string comparison when both sides are strings, else
numeric comparison; any NaN makes the comparison false. -/
def jsGE (a b : JSValue) : Bool :=
  match a, b with
  | str s1, str s2 => decide (s2 ≤ s1)
  | _, _ =>
    match toNumber a, toNumber b with
    | some x, some y => decide (y ≤ x)
    | _, _ => false

/-- JavaScript `a <= b`. -/
def jsLE (a b : JSValue) : Bool :=
  match a, b with
  | str s1, str s2 => decide (s1 ≤ s2)
  | _, _ =>
    match toNumber a, toNumber b with
    | some x, some y => decide (x ≤ y)
    | _, _ => false

/-- JavaScript `a > b`. -/
def jsGT (a b : JSValue) : Bool :=
  match a, b with
  | str s1, str s2 => decide (s2 < s1)
  | _, _ =>
    match toNumber a, toNumber b with
    | some x, some y => decide (y < x)
    | _, _ => false

end JSValue

open JSValue

/-- The persisted usage record, field for field the object the engine writes
to `localStorage` under the key `fashionAgent_usage`.  Fields hold arbitrary
`JSValue`s because the stored JSON is untrusted; a field the stored object
lacks reads as `undef`. -/
structure Usage where
  count : JSValue
  timestamp : JSValue
  limit : JSValue
  serverSync : JSValue
  serverResetTime : JSValue
deriving DecidableEq, Repr

/-- The state of the `fashionAgent_usage` localStorage slot, as seen through
`getItem` followed by `JSON.parse`:
* `absent`   — `getItem` returned `null` (or the falsy empty string);
* `corrupt`  — a value on which `JSON.parse` throws;
* `jnullDoc` — the value parses to JSON `null`, so any property access on the
  parse result throws a `TypeError`;
* `primDoc`  — the value parses to a non-null primitive (number, string,
  boolean), so every property access yields `undefined`;
* `obj u`    — the value parses to an object with the given fields. -/
inductive Stored where
  | absent : Stored
  | corrupt : Stored
  | jnullDoc : Stored
  | primDoc : Stored
  | obj : Usage → Stored
deriving DecidableEq, Repr

/-- `JSON.stringify` on a field value: `NaN` serialises as `null`; an
`undefined` field is dropped from the object, so it reads back as `undefined`
again and is modelled as the identity. -/
def stringifyVal : JSValue → JSValue
  | JSValue.nan => JSValue.jsnull
  | v => v

/-- `localStorage.setItem('fashionAgent_usage', JSON.stringify(usage))`:
the store afterwards parses back to the written record, with `NaN` fields
collapsed to `null`. -/
def storeUsage (u : Usage) : Stored :=
  Stored.obj ⟨stringifyVal u.count, stringifyVal u.timestamp, stringifyVal u.limit,
    stringifyVal u.serverSync, stringifyVal u.serverResetTime⟩

/-- `resetUsage()` (apiService.js lines 33–40): writes
`{count: 0, timestamp: now, limit: 20}`; the two server fields are absent from
the written object, hence `undefined` on re-read. -/
def resetStored (now : Int) : Stored :=
  Stored.obj ⟨num 0, num now, num 20, undef, undef⟩

/-- `getUsageSync()` (apiService.js lines 43–61): read and validate the
persisted record.  A missing record, a `JSON.parse` failure, or the
`TypeError` raised by property access on a parsed `null` all land on the
default object of line 60 (whose `serverResetTime` field is absent).  A parsed
primitive yields `undefined` for every field, which the validators replace by
the defaults, with `serverResetTime` becoming `null` via `|| null`.  For a
parsed object each numeric field is kept unless the global `isNaN` rejects it,
and the two server fields are defaulted through `||`. -/
def getUsageSync (stored : Stored) (now : Int) : Usage :=
  match stored with
  | Stored.obj u =>
      ⟨if jsIsNaN u.count then num 0 else u.count,
       if jsIsNaN u.timestamp then num now else u.timestamp,
       if jsIsNaN u.limit then num 20 else u.limit,
       jsOr u.serverSync (JSValue.bool false),
       jsOr u.serverResetTime jsnull⟩
  | Stored.primDoc => ⟨num 0, num now, num 20, JSValue.bool false, jsnull⟩
  | _ => ⟨num 0, num now, num 20, JSValue.bool false, undef⟩

/-- `initializeUsageTracking()` (apiService.js lines 15–30), run by the
constructor.  The `JSON.parse(stored)` on line 20 is not guarded by any
`try`/`catch`, so a corrupt record makes it throw a `SyntaxError`, and a
record parsing to `null` makes the `usage.timestamp` access on line 22 throw a
`TypeError`; both are modelled by `Except.error`.  Otherwise the store is
reset when `now - usage.timestamp > 18000000` (a `NaN` difference compares
false) or when no record exists. -/
def initializeUsageTracking (stored : Stored) (now : Int) : Except Unit Stored :=
  match stored with
  | Stored.absent => Except.ok (resetStored now)
  | Stored.corrupt => Except.error ()
  | Stored.jnullDoc => Except.error ()
  | Stored.primDoc => Except.ok Stored.primDoc
  | Stored.obj u =>
      if jsGT (jsSub (num now) u.timestamp) (num 18000000) then
        Except.ok (resetStored now)
      else
        Except.ok (Stored.obj u)

/-- The body of a `200` response from `GET /api/v1/rate-limit-status`, as the
probe `getRateLimitStatus()` hands it to `getUsage()`.  Any network failure or
non-2xx status makes the probe return `null`, modelled everywhere below by an
`Option ServerStatus` argument with value `none`. -/
structure ServerStatus where
  queries_used : JSValue
  queries_remaining : JSValue
  reset_time : JSValue
deriving DecidableEq, Repr

/-- `getUsage()` (apiService.js lines 64–99): when the probe yields a status,
rebuild the snapshot entirely from the server counters —
`limit = (queries_used || 0) + (queries_remaining || 20)`,
`count = queries_used || 0`, `timestamp = now`, `serverSync = true` — persist
and return it.  When the probe yields nothing (or throws), take the local
snapshot, force `serverSync = false`, clear `serverResetTime`, persist and
return it.  No expiry check happens on this path. -/
def getUsage (stored : Stored) (now : Int) (probe : Option ServerStatus) :
    Usage × Stored :=
  match probe with
  | some s =>
      let c := jsOr s.queries_used (num 0)
      let maxQueries := jsAdd c (jsOr s.queries_remaining (num 20))
      let u : Usage := ⟨c, num now, maxQueries, JSValue.bool true, s.reset_time⟩
      (u, storeUsage u)
  | none =>
      let u0 := getUsageSync stored now
      let u : Usage := ⟨u0.count, u0.timestamp, u0.limit, JSValue.bool false, jsnull⟩
      (u, storeUsage u)

/-- `hasReachedLimit()` (apiService.js lines 121–124): reconcile, then test
`usage.count >= usage.limit`. -/
def hasReachedLimit (stored : Stored) (now : Int) (probe : Option ServerStatus) :
    Bool × Stored :=
  let p := getUsage stored now probe
  (jsGE p.1.count p.1.limit, p.2)

/-- `incrementUsage()` (apiService.js lines 127–132): reconcile, add 1 to the
count, persist and return the incremented snapshot. -/
def incrementUsage (stored : Stored) (now : Int) (probe : Option ServerStatus) :
    Usage × Stored :=
  let p := getUsage stored now probe
  let u : Usage := { p.1 with count := jsAdd p.1.count (num 1) }
  (u, storeUsage u)

/-- The guard of the server-reset-time branch of `getTimeUntilReset` /
`getTimeUntilResetSync` (apiService.js lines 139 and 169 plus the inner
`isNaN(resetTime.getTime())` check): the snapshot's `serverResetTime` is
truthy, `serverSync` is truthy, the value is neither of the two sentinel
strings, and `new Date(...)` parses it to a valid instant (`dp`, the date
parser, returns `some`). -/
def serverResetApplies (u : Usage) (dp : JSValue → Option Int) : Bool :=
  jsTruthy u.serverResetTime && jsTruthy u.serverSync &&
    !(u.serverResetTime == JSValue.str "N/A") &&
    !(u.serverResetTime == JSValue.str "Window expired - resets on next query") &&
    (dp u.serverResetTime).isSome

/-- The local-arithmetic quantity `fiveHours - (Date.now() - usage.timestamp)`
of the fallback branch. -/
def localRemaining (u : Usage) (now : Int) : JSValue :=
  jsSub (num 18000000) (jsSub (num now) u.timestamp)

/-- The local fallback branch shared by both time-until-reset variants
(apiService.js lines 151–161 and 181–191): if the remaining time is `<= 0`,
reset the store and return 0, otherwise return the remaining time and leave
the store alone. -/
def localCalc (u : Usage) (st : Stored) (now : Int) : JSValue × Stored :=
  let timeRemaining := localRemaining u now
  if jsLE timeRemaining (num 0) then (num 0, resetStored now) else (timeRemaining, st)

/-- The shared body of `getTimeUntilReset` / `getTimeUntilResetSync`: use the
server reset instant (`max(0, resetInstant - now)`) when the guard holds,
otherwise fall back to the local arithmetic.  `dp` models
`new Date(v).getTime()` with its `isNaN` validity check (`none` = invalid
date); an unparsable or sentinel reset time therefore falls through to the
local branch, never raising an error. -/
def timeUntilResetCore (u : Usage) (st : Stored) (now : Int)
    (dp : JSValue → Option Int) : JSValue × Stored :=
  if serverResetApplies u dp then
    match dp u.serverResetTime with
    | some t => (num (max 0 (t - now)), st)
    | none => localCalc u st now
  else localCalc u st now

/-- `getTimeUntilReset()` (apiService.js lines 165–192): reconcile via
`getUsage`, then compute the time until reset. -/
def getTimeUntilReset (stored : Stored) (now : Int) (probe : Option ServerStatus)
    (dp : JSValue → Option Int) : JSValue × Stored :=
  let p := getUsage stored now probe
  timeUntilResetCore p.1 p.2 now dp

/-- `getTimeUntilResetSync()` (apiService.js lines 135–162): same computation
on the locally loaded snapshot, without touching the network. -/
def getTimeUntilResetSync (stored : Stored) (now : Int)
    (dp : JSValue → Option Int) : JSValue × Stored :=
  timeUntilResetCore (getUsageSync stored now) stored now dp

/-- The `Xh Ym` / `Ym` rendering of a positive millisecond count
(apiService.js lines 199–206), with `Math.floor` as flooring division and
JavaScript `%` as sign-truncating remainder. -/
def fmtMs (n : Int) : String :=
  let hours := Int.fdiv n 3600000
  let minutes := Int.fdiv (Int.tmod n 3600000) 60000
  if 0 < hours then toString hours ++ "h " ++ toString minutes ++ "m"
  else toString minutes ++ "m"

/-- `formatTimeUntilReset()` (apiService.js lines 210–222): `"Available now"`
for a zero or NaN remaining time, else the `Xh Ym` rendering. -/
def formatTimeUntilReset (stored : Stored) (now : Int) (probe : Option ServerStatus)
    (dp : JSValue → Option Int) : String × Stored :=
  let p := getTimeUntilReset stored now probe dp
  match p.1 with
  | num n => (if n = 0 then "Available now" else fmtMs n, p.2)
  | _ => ("Available now", p.2)

/-- The `rate_limit` object of a query-response envelope. -/
structure RateLimit where
  remaining : JSValue
  reset_time : JSValue
deriving DecidableEq, Repr

/-- The body of a successful `POST /api/v1/query` response, reduced to the
field the usage engine consumes; `rate_limit = none` models an envelope whose
`rate_limit` field is absent or falsy. -/
structure PostResponse where
  rate_limit : Option RateLimit
deriving DecidableEq, Repr

/-- `updateUsageFromServer(rateLimitInfo)` (apiService.js lines 272–284):
reconcile, recompute `count = usage.limit - rateLimitInfo.remaining`, set
`serverResetTime` from the envelope, persist. -/
def updateUsageFromServer (stored : Stored) (now : Int) (probe : Option ServerStatus)
    (rl : RateLimit) : Usage × Stored :=
  let p := getUsage stored now probe
  let u : Usage :=
    { p.1 with
      count := jsSub p.1.limit rl.remaining,
      serverResetTime := rl.reset_time }
  (u, storeUsage u)

/-- The usage summary `query()` attaches to a successful response
(apiService.js lines 304–309). -/
structure UsageSummary where
  count : JSValue
  limit : JSValue
  remaining : JSValue
  resetTime : String
deriving DecidableEq, Repr

/-- The outcome of one `query()` call: the thrown or returned value, the final
state of the persisted store, and whether the `POST /api/v1/query` request was
issued at all. -/
structure QueryOutcome where
  outcome : Except String UsageSummary
  store : Stored
  didPost : Bool

/-- `query(message)` (apiService.js lines 287–315) together with the parts of
`apiRequest` (lines 242–269) the usage engine touches.  The probe arguments
`pA`–`pD` are the results of the four server-status probes one call can
perform (pre-check, blocked-path formatting or `updateUsageFromServer`,
`incrementUsage`, final formatting); `post` is the outcome of the `POST`
itself (`none` for transport failure, 429 or any other non-2xx — all of which
throw before the usage bookkeeping runs).  The un-awaited
`this.updateUsageFromServer(data.rate_limit)` call inside `apiRequest` is
modelled at the point its store write lands under FIFO resolution of the
pending fetches: after `apiRequest` returns and before `incrementUsage` reads
the store, since its probe was issued first. -/
def query (stored : Stored) (now : Int) (pA pB pC pD : Option ServerStatus)
    (post : Option PostResponse) (dp : JSValue → Option Int) : QueryOutcome :=
  let pre := hasReachedLimit stored now pA
  if pre.1 then
    let f := formatTimeUntilReset pre.2 now pB dp
    ⟨Except.error ("Rate limit reached. You can make 20 queries every 5 hours. Next reset: "
        ++ f.1), f.2, false⟩
  else
    match post with
    | none => ⟨Except.error "request failed", pre.2, true⟩
    | some resp =>
        let st2 := match resp.rate_limit with
          | some rl => (updateUsageFromServer pre.2 now pB rl).2
          | none => pre.2
        let inc := incrementUsage st2 now pC
        let f := formatTimeUntilReset inc.2 now pD dp
        ⟨Except.ok ⟨inc.1.count, inc.1.limit, jsSub inc.1.limit inc.1.count, f.1⟩,
          f.2, true⟩

/-! ## Helper lemmas -/

/-- Every snapshot `getUsageSync` returns has a timestamp on which JavaScript
numeric coercion succeeds: the `isNaN` validator replaced any non-coercible
value by `now`. -/
theorem timestampCoercibleSync (stored : Stored) (now : Int) :
    (toNumber (getUsageSync stored now).timestamp).isSome = true := by
  cases stored with
  | obj u =>
      by_cases h : jsIsNaN u.timestamp = true
      · simp [getUsageSync, h, toNumber]
      · simp only [getUsageSync, h, if_false, Bool.false_eq_true, if_neg, not_false_iff]
        simp only [jsIsNaN, Bool.not_eq_true, Option.isNone_eq_false_iff] at h
        simpa using h
  | absent => rfl
  | corrupt => rfl
  | jnullDoc => rfl
  | primDoc => rfl

/-- The same for every snapshot `getUsage` returns. -/
theorem timestampCoercible (stored : Stored) (now : Int) (probe : Option ServerStatus) :
    (toNumber (getUsage stored now probe).1.timestamp).isSome = true := by
  cases probe with
  | some s => rfl
  | none => exact timestampCoercibleSync stored now

/-- The local fallback branch returns a nonnegative number whenever the
snapshot's timestamp coerces to a number. -/
theorem localCalc_nonneg (u : Usage) (st : Stored) (now : Int)
    (h : (toNumber u.timestamp).isSome = true) :
    ∃ n : Int, 0 ≤ n ∧ (localCalc u st now).1 = num n := by
  obtain ⟨t, ht⟩ := Option.isSome_iff_exists.mp h
  have hlr : localRemaining u now = num (18000000 - (now - t)) := by
    unfold localRemaining jsSub
    rw [ht]
    rfl
  by_cases hc : (18000000 : Int) - (now - t) ≤ 0
  · refine ⟨0, le_refl 0, ?_⟩
    simp [localCalc, hlr, jsLE, toNumber, hc]
  · refine ⟨18000000 - (now - t), by omega, ?_⟩
    simp [localCalc, hlr, jsLE, toNumber, hc]

/-- The local fallback branch resets the store and returns 0 when the
remaining time is not positive. -/
theorem localCalc_expired (u : Usage) (st : Stored) (now : Int)
    (h : jsLE (localRemaining u now) (num 0) = true) :
    localCalc u st now = (num 0, resetStored now) := by
  simp [localCalc, h]

/-- The shared time-until-reset computation returns a nonnegative number
whenever the snapshot's timestamp coerces. -/
theorem core_nonneg (u : Usage) (st : Stored) (now : Int) (dp : JSValue → Option Int)
    (h : (toNumber u.timestamp).isSome = true) :
    ∃ n : Int, 0 ≤ n ∧ (timeUntilResetCore u st now dp).1 = num n := by
  unfold timeUntilResetCore
  by_cases hs : serverResetApplies u dp = true
  · simp only [hs, if_true]
    cases hd : dp u.serverResetTime with
    | some t => exact ⟨max 0 (t - now), le_max_left 0 (t - now), rfl⟩
    | none => exact localCalc_nonneg u st now h
  · simp only [Bool.not_eq_true] at hs
    simp only [hs, Bool.false_eq_true, if_false]
    exact localCalc_nonneg u st now h

/-- The shared time-until-reset computation resets the store and returns 0
when the server branch does not apply and the local remaining time is not
positive. -/
theorem core_expired (u : Usage) (st : Stored) (now : Int) (dp : JSValue → Option Int)
    (h1 : serverResetApplies u dp = false)
    (h2 : jsLE (localRemaining u now) (num 0) = true) :
    timeUntilResetCore u st now dp = (num 0, resetStored now) := by
  unfold timeUntilResetCore
  simp only [h1, Bool.false_eq_true, if_false]
  exact localCalc_expired u st now h2

/-! ## Claims -/

/-- C1 (counterexample): the claim "for every present server status the
reconciled limit equals queriesUsed + queriesRemaining" fails at the server
status `queries_used = 20, queries_remaining = 0`: the `|| 20` default in
`getUsage` treats the falsy remaining count 0 as absent, so the reconciled
limit is 40, not 20 + 0 = 20. -/
theorem c1_counterexample :
    (getUsage Stored.absent 0 (some ⟨num 20, num 0, JSValue.str "N/A"⟩)).1.limit = num 40 ∧
    JSValue.num 40 ≠ JSValue.num (20 + 0) := by
  decide

/-- C1 (amended): whenever the server probe succeeds and the reported
`queries_remaining` is nonzero, the reconciled snapshot has
`limit = queries_used + queries_remaining`, `count = queries_used`,
`serverSync = true`, and the returned snapshot is also the one persisted. -/
theorem c1_amended (stored : Stored) (now q r : Int) (rt : JSValue) (hr : r ≠ 0) :
    (getUsage stored now (some ⟨num q, num r, rt⟩)).1.count = num q ∧
    (getUsage stored now (some ⟨num q, num r, rt⟩)).1.limit = num (q + r) ∧
    (getUsage stored now (some ⟨num q, num r, rt⟩)).1.serverSync = JSValue.bool true ∧
    (getUsage stored now (some ⟨num q, num r, rt⟩)).2 =
      storeUsage (getUsage stored now (some ⟨num q, num r, rt⟩)).1 := by
  refine ⟨?_, ?_, rfl, rfl⟩ <;>
    by_cases hq : q = 0 <;>
      simp [getUsage, jsOr, jsTruthy, jsAdd, toNumber, hq, hr]

/-- C1 (witness): the spec's own instance, `queries_used = 3,
queries_remaining = 17`, gives `limit = 20, count = 3, serverSync = true`. -/
theorem c1_witness :
    (17 : Int) ≠ 0 ∧
    (getUsage Stored.absent 0 (some ⟨num 3, num 17, JSValue.str "soon"⟩)).1.count = num 3 ∧
    (getUsage Stored.absent 0 (some ⟨num 3, num 17, JSValue.str "soon"⟩)).1.limit = num 20 ∧
    (getUsage Stored.absent 0 (some ⟨num 3, num 17, JSValue.str "soon"⟩)).1.serverSync =
      JSValue.bool true := by
  have h := c1_amended Stored.absent 0 3 17 (JSValue.str "soon") (by decide)
  have h2 := h.2.1
  norm_num at h2
  exact ⟨by decide, h.1, h2, h.2.2.1⟩

/-- C2 (counterexample): the claim "reconciliation (getUsage) with no server
data resets an expired window" fails: with a persisted snapshot whose
timestamp (0) is more than 5 hours before `now = 18000001`, `getUsage` with an
absent server status returns the stale count 5 and the stale timestamp 0
unchanged — it contains no expiry check. -/
theorem c2_counterexample :
    (18000001 : Int) - 0 > 18000000 ∧
    (getUsage (Stored.obj ⟨num 5, num 0, num 20, JSValue.bool false, undef⟩)
      18000001 none).1.count = num 5 ∧
    (getUsage (Stored.obj ⟨num 5, num 0, num 20, JSValue.bool false, undef⟩)
      18000001 none).1.timestamp = num 0 ∧
    JSValue.num 5 ≠ JSValue.num 0 ∧ JSValue.num 0 ≠ JSValue.num 18000001 := by
  decide

/-- C2 (amended): the expiry reset lives in `initializeUsageTracking`
(run by the constructor), not in `getUsage`: for every persisted record whose
timestamp is a number more than 18000000 ms before `now`, initialization
rewrites the store to the default snapshot, whose loaded form has `count = 0`
and `timestamp = now`. -/
theorem c2_amended (c l sync srt : JSValue) (ts now : Int) (h : now - ts > 18000000) :
    initializeUsageTracking (Stored.obj ⟨c, num ts, l, sync, srt⟩) now =
      Except.ok (resetStored now) ∧
    (getUsageSync (resetStored now) now).count = num 0 ∧
    (getUsageSync (resetStored now) now).timestamp = num now := by
  refine ⟨?_, rfl, rfl⟩
  simp [initializeUsageTracking, jsGT, jsSub, toNumber, h]

/-- C2 (witness): at timestamp 0 and `now = 18000001` the initialization
resets the store. -/
theorem c2_witness :
    (18000001 : Int) - 0 > 18000000 ∧
    initializeUsageTracking (Stored.obj ⟨num 5, num 0, num 20, JSValue.bool false, undef⟩)
      18000001 = Except.ok (resetStored 18000001) := by
  have h := c2_amended (num 5) (num 20) (JSValue.bool false) undef 0 18000001 (by norm_num)
  exact ⟨by norm_num, h.1⟩

/-- C4 (code bug): `initializeUsageTracking`, run by the constructor, calls
`JSON.parse(stored)` outside any `try`/`catch` (apiService.js line 20), so a
corrupt persisted record makes construction throw a `SyntaxError` instead of
absorbing the anomaly as `getUsageSync` does. -/
theorem c4_init_throws :
    initializeUsageTracking Stored.corrupt 0 = Except.error () ∧
    initializeUsageTracking Stored.jnullDoc 0 = Except.error () := by
  exact ⟨rfl, rfl⟩

/-- C5 (counterexample): the claim "every non-numeric count/limit/timestamp
field is defaulted" fails for a record whose fields are JSON `null`: the
global `isNaN(null)` is `false` (`null` coerces to 0), so `getUsageSync`
passes `null` through, returning `count = null` (not 0) and `limit = null`
(not 20). -/
theorem c5_counterexample :
    (getUsageSync (Stored.obj ⟨jsnull, jsnull, jsnull, undef, undef⟩) 0).count = jsnull ∧
    (getUsageSync (Stored.obj ⟨jsnull, jsnull, jsnull, undef, undef⟩) 0).limit = jsnull ∧
    jsnull ≠ num 0 ∧ jsnull ≠ num 20 := by
  decide

/-- C5 (amended): `getUsageSync` never throws (it is total), and returns
`count = 0` / `limit = 20` for every missing record, decode failure, parsed
null or parsed primitive, and for parsed objects exactly when the respective
field fails JavaScript numeric coercion (global `isNaN`); fields that coerce —
`null`, booleans, numeric strings — are passed through unchanged. -/
theorem c5_amended (stored : Stored) (now : Int) :
    ((∀ u, stored = Stored.obj u → jsIsNaN u.count = true) →
      (getUsageSync stored now).count = num 0) ∧
    ((∀ u, stored = Stored.obj u → jsIsNaN u.limit = true) →
      (getUsageSync stored now).limit = num 20) ∧
    (∀ u, stored = Stored.obj u → jsIsNaN u.count = false →
      (getUsageSync stored now).count = u.count) ∧
    (∀ u, stored = Stored.obj u → jsIsNaN u.limit = false →
      (getUsageSync stored now).limit = u.limit) := by
  refine ⟨?_, ?_, ?_, ?_⟩
  · intro h
    cases stored with
    | obj u => simp [getUsageSync, h u rfl]
    | absent => rfl
    | corrupt => rfl
    | jnullDoc => rfl
    | primDoc => rfl
  · intro h
    cases stored with
    | obj u => simp [getUsageSync, h u rfl]
    | absent => rfl
    | corrupt => rfl
    | jnullDoc => rfl
    | primDoc => rfl
  · intro u hu h
    subst hu
    simp [getUsageSync, h]
  · intro u hu h
    subst hu
    simp [getUsageSync, h]

/-- C5 (witness): on a corrupt record the load returns the defaults. -/
theorem c5_witness :
    (getUsageSync Stored.corrupt 0).count = num 0 ∧
    (getUsageSync Stored.corrupt 0).limit = num 20 := by
  have h := c5_amended Stored.corrupt 0
  refine ⟨h.1 ?_, h.2.1 ?_⟩ <;> intro u hu <;> simp at hu

/-- C6 (counterexample): the claim "limit > 0 for every snapshot produced by
any operation" fails: a persisted record with `limit = 0` passes the `isNaN`
validation (0 is a number), so `getUsageSync` returns a snapshot whose limit
is 0, not positive. -/
theorem c6_counterexample :
    (getUsageSync (Stored.obj ⟨num 0, num 0, num 0, undef, undef⟩) 5).limit = num 0 ∧
    ∀ m : Int, JSValue.num 0 = JSValue.num m → ¬ 0 < m := by
  refine ⟨by decide, ?_⟩
  intro m hm
  simp only [JSValue.num.injEq] at hm
  omega

/-- C6 (amended): `limit > 0` holds for the snapshots the engine builds
itself — the reset/default snapshot always has limit 20, a load keeps a
stored positive limit, and a server reconciliation yields a positive limit
whenever `queries_used ≥ 0` and `queries_remaining > 0` — but it is not an
unconditional invariant: a non-positive stored limit or non-positive server
counters flow through unchecked. -/
theorem c6_amended :
    (∀ now n : Int, (getUsageSync (resetStored now) n).limit = num 20) ∧
    (∀ (u : Usage) (n l : Int), u.limit = num l → 0 < l →
      ∃ m : Int, (getUsageSync (Stored.obj u) n).limit = num m ∧ 0 < m) ∧
    (∀ (st : Stored) (n q r : Int) (rt : JSValue), 0 ≤ q → 0 < r →
      ∃ m : Int, (getUsage st n (some ⟨num q, num r, rt⟩)).1.limit = num m ∧ 0 < m) := by
  refine ⟨fun now n => rfl, ?_, ?_⟩
  · intro u n l hl hpos
    refine ⟨l, ?_, hpos⟩
    simp [getUsageSync, hl, jsIsNaN, toNumber]
  · intro st n q r rt hq hr
    have hrne : r ≠ 0 := by omega
    by_cases hq0 : q = 0
    · refine ⟨0 + r, ?_, by omega⟩
      simp [getUsage, jsOr, jsTruthy, jsAdd, toNumber, hq0, hrne]
    · refine ⟨q + r, ?_, by omega⟩
      simp [getUsage, jsOr, jsTruthy, jsAdd, toNumber, hq0, hrne]

/-- C6 (witness): loading a record with stored limit 20 keeps the positive
limit. -/
theorem c6_witness :
    ∃ m : Int,
      (getUsageSync (Stored.obj ⟨num 3, num 0, num 20, undef, undef⟩) 7).limit = num m ∧
      0 < m := by
  exact c6_amended.2.1 ⟨num 3, num 0, num 20, undef, undef⟩ 7 20 rfl (by norm_num)

/-- C7 (confirmed): both time-until-reset variants always return a
nonnegative number — the server branch through `max(0, ...)`, the local
branch because a non-positive remainder is replaced by 0 — and whenever the
server-reset branch does not apply and the local remaining time is `<= 0`,
the call resets the store (`count = 0`, `timestamp = now`) and returns 0. -/
theorem c7_time_until_reset (stored : Stored) (now : Int) (probe : Option ServerStatus)
    (dp : JSValue → Option Int) :
    (∃ n : Int, 0 ≤ n ∧ (getTimeUntilReset stored now probe dp).1 = num n) ∧
    (∃ n : Int, 0 ≤ n ∧ (getTimeUntilResetSync stored now dp).1 = num n) ∧
    (serverResetApplies (getUsage stored now probe).1 dp = false →
      jsLE (localRemaining (getUsage stored now probe).1 now) (num 0) = true →
      getTimeUntilReset stored now probe dp = (num 0, resetStored now)) ∧
    (serverResetApplies (getUsageSync stored now) dp = false →
      jsLE (localRemaining (getUsageSync stored now) now) (num 0) = true →
      getTimeUntilResetSync stored now dp = (num 0, resetStored now)) := by
  refine ⟨?_, ?_, ?_, ?_⟩
  · exact core_nonneg (getUsage stored now probe).1 (getUsage stored now probe).2 now dp
      (timestampCoercible stored now probe)
  · exact core_nonneg (getUsageSync stored now) stored now dp
      (timestampCoercibleSync stored now)
  · intro h1 h2
    exact core_expired (getUsage stored now probe).1 (getUsage stored now probe).2 now dp h1 h2
  · intro h1 h2
    exact core_expired (getUsageSync stored now) stored now dp h1 h2

/-- C7 (witness): a snapshot whose local window expired long ago (timestamp
0 at `now = 99999999`, no usable server reset time) makes `getTimeUntilReset`
reset the store and return 0. -/
theorem c7_witness :
    getTimeUntilReset (Stored.obj ⟨num 3, num 0, num 20, undef, undef⟩) 99999999 none
      (fun _ => none) = (num 0, resetStored 99999999) := by
  exact (c7_time_until_reset (Stored.obj ⟨num 3, num 0, num 20, undef, undef⟩) 99999999 none
    (fun _ => none)).2.2.1 (by decide) (by decide)

/-- C8 (confirmed): when the server probe yields nothing, `getUsage` returns
a snapshot whose `count`, `limit` and `timestamp` are exactly those of the
locally loaded snapshot, with `serverSync` forced to `false` and
`serverResetTime` cleared to `null`, and persists exactly the snapshot it
returns. -/
theorem c8_offline_frame (stored : Stored) (now : Int) :
    (getUsage stored now none).1.count = (getUsageSync stored now).count ∧
    (getUsage stored now none).1.limit = (getUsageSync stored now).limit ∧
    (getUsage stored now none).1.timestamp = (getUsageSync stored now).timestamp ∧
    (getUsage stored now none).1.serverSync = JSValue.bool false ∧
    (getUsage stored now none).1.serverResetTime = jsnull ∧
    (getUsage stored now none).2 = storeUsage (getUsage stored now none).1 := by
  exact ⟨rfl, rfl, rfl, rfl, rfl, rfl⟩

/-- C9 (confirmed): whenever the reconciled snapshot of the pre-check has
`count >= limit`, `query` throws the rate-limit message carrying the
formatted time until reset and never issues the `POST /api/v1/query`
request. -/
theorem c9_blocked_no_post (stored : Stored) (now : Int)
    (pA pB pC pD : Option ServerStatus) (post : Option PostResponse)
    (dp : JSValue → Option Int)
    (h : jsGE (getUsage stored now pA).1.count (getUsage stored now pA).1.limit = true) :
    (query stored now pA pB pC pD post dp).didPost = false ∧
    (query stored now pA pB pC pD post dp).outcome =
      Except.error ("Rate limit reached. You can make 20 queries every 5 hours. Next reset: "
        ++ (formatTimeUntilReset (getUsage stored now pA).2 now pB dp).1) := by
  simp [query, hasReachedLimit, h]

/-- C9 (witness): a snapshot at its limit (count 20 of 20) with the probe
unreachable yields the blocked message with the locally formatted reset time
and no POST. -/
theorem c9_witness :
    (query (Stored.obj ⟨num 20, num 0, num 20, undef, undef⟩) 0 none none none none none
      (fun _ => none)).didPost = false ∧
    (query (Stored.obj ⟨num 20, num 0, num 20, undef, undef⟩) 0 none none none none none
      (fun _ => none)).outcome =
      Except.error
        "Rate limit reached. You can make 20 queries every 5 hours. Next reset: 5h 0m" := by
  have h := c9_blocked_no_post (Stored.obj ⟨num 20, num 0, num 20, undef, undef⟩) 0
    none none none none none (fun _ => none) (by decide)
  refine ⟨h.1, ?_⟩
  rw [h.2]
  rfl

/-- C10 (confirmed): `incrementUsage` re-runs the full reconciliation first,
so when the probe succeeds with numeric counters the persisted-and-returned
snapshot has `count = queries_used + 1` and a limit rebuilt from the server
counters alone (`queries_used + queries_remaining`, with a falsy remaining
count replaced by the default 20); the previously persisted state has no
effect on the result. -/
theorem c10_increment_server (stored stored' : Stored) (now q r : Int) (rt : JSValue) :
    (incrementUsage stored now (some ⟨num q, num r, rt⟩)).1.count = num (q + 1) ∧
    (incrementUsage stored now (some ⟨num q, num r, rt⟩)).1.limit =
      num (q + (if r = 0 then 20 else r)) ∧
    incrementUsage stored now (some ⟨num q, num r, rt⟩) =
      incrementUsage stored' now (some ⟨num q, num r, rt⟩) ∧
    (incrementUsage stored now (some ⟨num q, num r, rt⟩)).2 =
      storeUsage (incrementUsage stored now (some ⟨num q, num r, rt⟩)).1 := by
  refine ⟨?_, ?_, rfl, rfl⟩
  · by_cases hq : q = 0 <;>
      simp [incrementUsage, getUsage, jsOr, jsTruthy, jsAdd, toNumber, hq]
  · by_cases hq : q = 0 <;> by_cases hr : r = 0 <;>
      simp [incrementUsage, getUsage, jsOr, jsTruthy, jsAdd, toNumber, hq, hr]

/-- C3 (counterexample): the claim "the server's rate_limit value overwrites
the optimistic local increment, so the server value takes final precedence"
fails: with persisted count 5 of 20 and a successful POST reporting
`rate_limit.remaining = 10`, the engine first writes the server-derived count
`20 - 10 = 10` (the un-awaited `updateUsageFromServer`) and then the
increment lands on top, leaving a final persisted count of 11 — not the
server-derived 10. -/
theorem c3_counterexample :
    (query (Stored.obj ⟨num 5, num 0, num 20, JSValue.bool false, undef⟩) 1000
      none none none none (some ⟨some ⟨num 10, JSValue.str "N/A"⟩⟩) (fun _ => none)).store
      = Stored.obj ⟨num 11, num 0, num 20, JSValue.bool false, jsnull⟩ ∧
    JSValue.num 11 ≠ JSValue.num (20 - 10) := by
  decide

/-- C3 (amended): on a successful query the optimistic increment is applied
after the `rate_limit`-derived overwrite, not before it: for a well-formed
persisted snapshot below its limit and inside its window, with the status
probe unreachable and the POST succeeding with `rate_limit.remaining = r`,
the final persisted count is `(limit - r) + 1` — the local increment, not the
server value, takes final precedence. -/
theorem c3_amended (c l ts r now : Int) (h1 : c < l) (h2 : now - ts < 18000000) :
    (query (Stored.obj ⟨num c, num ts, num l, JSValue.bool false, undef⟩) now
        none none none none (some ⟨some ⟨num r, JSValue.str "N/A"⟩⟩) (fun _ => none)).store
      = Stored.obj ⟨num (l - r + 1), num ts, num l, JSValue.bool false, jsnull⟩ ∧
    (query (Stored.obj ⟨num c, num ts, num l, JSValue.bool false, undef⟩) now
        none none none none (some ⟨some ⟨num r, JSValue.str "N/A"⟩⟩) (fun _ => none)).didPost
      = true := by
  have hblock : ¬ (l ≤ c) := by omega
  have hrem : ¬ ((18000000 : Int) - (now - ts) ≤ 0) := by omega
  constructor
  · simp [query, hasReachedLimit, getUsage, getUsageSync, storeUsage, stringifyVal,
      updateUsageFromServer, incrementUsage, formatTimeUntilReset, getTimeUntilReset,
      timeUntilResetCore, serverResetApplies, localCalc, localRemaining, jsGE, jsLE,
      jsSub, jsAdd, jsOr, jsTruthy, jsIsNaN, toNumber, hblock, hrem]
  · simp [query, hasReachedLimit, getUsage, getUsageSync, storeUsage, stringifyVal,
      updateUsageFromServer, incrementUsage, formatTimeUntilReset, getTimeUntilReset,
      timeUntilResetCore, serverResetApplies, localCalc, localRemaining, jsGE, jsLE,
      jsSub, jsAdd, jsOr, jsTruthy, jsIsNaN, toNumber, hblock, hrem]

/-- C3 (witness): the concrete run of the amended statement — count 5 of 20,
`remaining = 10` — ends with persisted count 11 and the POST issued. -/
theorem c3_witness :
    (5 : Int) < 20 ∧ (1000 : Int) - 0 < 18000000 ∧
    (query (Stored.obj ⟨num 5, num 0, num 20, JSValue.bool false, undef⟩) 1000
      none none none none (some ⟨some ⟨num 10, JSValue.str "N/A"⟩⟩) (fun _ => none)).didPost
      = true := by
  have h := c3_amended 5 20 0 10 1000 (by norm_num) (by norm_num)
  exact ⟨by norm_num, by norm_num, h.2⟩
